import Mathlib

/-!
Shallow embedding of the SignBoard Reader orchestration core.

Sources embedded here:
- `SignboardReader.tsx`: the session state record, the clap toggle
  (`handleClapDetected`), the recognition cycle (`processImage`, split into its
  synchronous phases: the entry guard, the success/empty/error completions),
  the timer scheduling through `processingTimeoutRef`, and the auto-start
  `useEffect`.
- `AudioDetector.tsx`: the per-tick clap detection of `processAudio`.
- `TextToSpeech.tsx`: the `speak` entry point and its degenerate-input guard.

Modelling conventions: JavaScript strings are Lean `String`s over `List Char`
(`s.trim()` is `jsTrim`, `s.substring(0, 50)` is `jsSubstring50`; both are
defined over the character list so that the kernel can evaluate them).
JavaScript numbers used for levels, rates and volumes are `ℚ` (the code only
compares and averages exact decimal constants, so rationals are faithful);
timestamps and delays in milliseconds are `ℕ`.  `async` control flow is split
at each `await`: a completion handler receives the state snapshot captured by
the closure of the running cycle (`snap`) and the component state current at
resolution time (`cur`), matching the render-scoped `state` binding versus the
`prev` argument of the functional `setState` updates.  A `setTimeout` callback
is a `PendingTimer` carrying the `state.isActive` value captured by the
scheduling closure, because the callback can only ever read that captured
binding.
-/

/-- The recognition languages of `SignboardReader.tsx` (`'eng' | 'hin' | 'tel'`). -/
inductive Lang where
  | eng
  | hin
  | tel
deriving DecidableEq, Repr

/-- One call to `speakStatus` / `speechSynthesis.speak`: the utterance text and
its locale tag (`utterance.lang`). -/
structure Speak where
  text : String
  lang : String
deriving DecidableEq, Repr

/-- `SignboardReaderState` from `SignboardReader.tsx` lines 10-17. -/
structure ReaderState where
  isActive : Bool
  isProcessing : Bool
  recognizedText : String
  currentLanguage : Lang
  status : String
  error : Option String
deriving DecidableEq, Repr

/-- JavaScript `String.prototype.trim`: strip leading and trailing whitespace.
Defined over the character list so proofs can evaluate it. -/
def jsTrim (s : String) : String :=
  ⟨((s.data.dropWhile Char.isWhitespace).reverse.dropWhile Char.isWhitespace).reverse⟩

/-- JavaScript `s.substring(0, 50)` as used on the recognized text. -/
def jsSubstring50 (s : String) : String :=
  ⟨s.data.take 50⟩

/-- Initial status string (`SignboardReader.tsx` line 25). -/
def readyStatus : String := "Ready to start. Clap to activate!"

/-- Status set on activation (line 55). -/
def activatedStatus : String := "Camera activated! Point at text to read."

/-- Status set on deactivation (line 68). -/
def deactivatedStatus : String := "Deactivated. Clap to activate again."

/-- Status set when a cycle starts scanning (line 78). -/
def scanningStatus : String := "Scanning for text..."

/-- Spoken announcement when a cycle starts scanning (line 79). -/
def scanningSpeech : String := "Scanning for text, please wait."

/-- Status set after a successful capture, while recognition runs (line 90). -/
def processingStatus : String := "Processing text recognition..."

/-- Spoken announcement on activation (line 51). -/
def activatedSpeech : String := "SignBoard Reader activated. Point camera at text."

/-- Spoken announcement on deactivation (line 59). -/
def deactivatedSpeech : String := "SignBoard Reader deactivated."

/-- Status and announcement for the empty-text outcome (lines 127 and 130). -/
def noTextStatus : String := "No text found. Try adjusting the camera position."

/-- Status and announcement for the failure outcome (lines 144 and 147). -/
def errorStatus : String := "Error during text recognition. Please try again."

/-- Status template of the non-empty success outcome (line 102):
`Found text: ${cleanText.substring(0, 50)}${cleanText.length > 50 ? '...' : ''}`. -/
def foundStatus (cleanText : String) : String :=
  "Found text: " ++ jsSubstring50 cleanText ++ (if cleanText.length > 50 then "..." else "")

/-- The TTS locale chosen for the recognized text (`SignboardReader.tsx`
lines 106-112): default `en-US`, `hin ↦ hi-IN`, `tel ↦ te-IN`. -/
def ttsLanguage : Lang → String
  | Lang.hin => "hi-IN"
  | Lang.tel => "te-IN"
  | Lang.eng => "en-US"

/-- A scheduled `setTimeout` callback of `processImage` (lines 118-122 and
133-137).  The callback body is `if (state.isActive) processImage();` where
`state` is the render-scoped binding captured when the closure was created, so
the timer carries that captured value. -/
structure PendingTimer where
  delayMs : Nat
  capturedIsActive : Bool
deriving DecidableEq, Repr

/-- `handleClapDetected` (lines 46-73).  Takes the current state and the
tracked `processingTimeoutRef` content; returns the next state, the ref after
the call (deactivation runs `clearTimeout` on it) and the emitted speaks.
Activation sets `isActive`, the activated status and clears `error`;
deactivation cancels the tracked timer, forces `isProcessing := false`, sets
the deactivated status and clears `recognizedText`. -/
def handleClapDetected (st : ReaderState) (ref : Option PendingTimer) :
    ReaderState × Option PendingTimer × List Speak :=
  if !st.isActive then
    ({ st with isActive := true, status := activatedStatus, error := none },
     ref,
     [{ text := activatedSpeech, lang := "en-US" }])
  else
    ({ st with isActive := false, isProcessing := false,
               status := deactivatedStatus, recognizedText := "" },
     none,
     [{ text := deactivatedSpeech, lang := "en-US" }])

/-- The synchronous entry of `processImage` (lines 75-79).  `snap` is the
state captured by the closure being invoked — the render-scoped `state`
binding the guard `!state.isActive || state.isProcessing ||
!cameraRef.current` reads; `cur` is the component state at invocation time,
the `prev` of the functional update; `cameraPresent` is `cameraRef.current`,
which as a ref is read at call time.  When the guard passes, the current state
moves to processing with the scanning status and the scanning announcement is
spoken.  A call through a freshly created closure has `snap` agreeing with
`cur` on the guard fields; a call through a stale timer callback can have them
disagree. -/
def processStart (snap : ReaderState) (cameraPresent : Bool) (cur : ReaderState) :
    Option (ReaderState × Speak) :=
  if !snap.isActive || snap.isProcessing || !cameraPresent then none
  else some ({ cur with isProcessing := true, status := scanningStatus },
             { text := scanningSpeech, lang := "en-US" })

/-- The success continuation of `processImage` (lines 96-138), entered when
`worker.recognize` resolves with `text`.  `snap` is the state captured by the
running closure (used for `currentLanguage`, for the TTS locale and for the
`state.isActive` captured by the scheduled callback); `cur` is the component
state at resolution time (the `prev` of the functional updates).  Returns the
next state, the speaks emitted and the timer stored into
`processingTimeoutRef` (3000 ms after non-empty text, 1500 ms after
empty/whitespace text).  Note: no `isActive` recheck occurs before the updates
are applied. -/
def onRecognitionSuccess (snap : ReaderState) (text : String) (cur : ReaderState) :
    ReaderState × List Speak × Option PendingTimer :=
  let cleanText := jsTrim text
  if cleanText.length > 0 then
    ({ cur with recognizedText := cleanText,
                status := foundStatus cleanText,
                isProcessing := false },
     [{ text := cleanText, lang := ttsLanguage snap.currentLanguage }],
     some { delayMs := 3000, capturedIsActive := snap.isActive })
  else
    ({ cur with status := noTextStatus, isProcessing := false },
     [{ text := noTextStatus, lang := "en-US" }],
     some { delayMs := 1500, capturedIsActive := snap.isActive })

/-- The `catch` branch of `processImage` (lines 139-148): sets `error` to the
failure message, the error status, `isProcessing := false`, speaks the error
status, and stores nothing into `processingTimeoutRef`. -/
def onRecognitionError (msg : String) (cur : ReaderState) :
    ReaderState × List Speak × Option PendingTimer :=
  ({ cur with error := some msg, status := errorStatus, isProcessing := false },
   [{ text := errorStatus, lang := "en-US" }],
   none)

/-- The auto-start `useEffect` body (lines 152-157): whenever it runs with
`state.isActive && !state.isProcessing`, it schedules `processImage` after
1000 ms; otherwise it schedules nothing. -/
def autoStartDelay (st : ReaderState) : Option Nat :=
  if st.isActive && !st.isProcessing then some 1000 else none

/-- Whether a fired `setTimeout` callback of lines 118-122 / 133-137 invokes
`processImage`: the body `if (state.isActive) processImage();` reads the
`state.isActive` captured by the closure that created the callback. -/
def timerFireStartsCycle (t : PendingTimer) : Bool :=
  t.capturedIsActive

/-- One outstanding `setTimeout` handle in the timer model used for the
pending-timer bookkeeping claims. -/
structure TimerEntry where
  id : Nat
  delayMs : Nat
deriving DecidableEq, Repr

/-- The timers of one component instance: `live` are the scheduled and not yet
fired or cancelled timeouts, `refTimer` is the id held by
`processingTimeoutRef.current`, `effectTimer` the id held by the auto-start
effect's local `timer` variable. -/
structure TimerWorld where
  nextId : Nat
  live : List TimerEntry
  refTimer : Option Nat
  effectTimer : Option Nat
deriving DecidableEq, Repr

/-- `processingTimeoutRef.current = setTimeout(..., delayMs)` (lines 118 and
133): a new timeout is created and the ref is overwritten with its handle.  No
`clearTimeout` is issued, so a previously scheduled timeout stays live. -/
def setRefTimeout (w : TimerWorld) (delayMs : Nat) : TimerWorld :=
  { w with live := { id := w.nextId, delayMs := delayMs } :: w.live,
           refTimer := some w.nextId,
           nextId := w.nextId + 1 }

/-- The deactivation branch of `handleClapDetected` (lines 61-63):
`if (processingTimeoutRef.current) clearTimeout(processingTimeoutRef.current)`.
The tracked timeout is cancelled; the ref itself is not nulled. -/
def clearRefTimeout (w : TimerWorld) : TimerWorld :=
  match w.refTimer with
  | some i => { w with live := w.live.filter (fun e => e.id != i) }
  | none => w

/-- One run of the auto-start effect (lines 152-157) together with the cleanup
of its previous run: the previous effect timeout is cancelled, then if
`state.isActive && !state.isProcessing` a fresh 1000 ms timeout is created. -/
def effectRun (st : ReaderState) (w : TimerWorld) : TimerWorld :=
  let w1 :=
    match w.effectTimer with
    | some i => { w with live := w.live.filter (fun e => e.id != i), effectTimer := none }
    | none => w
  if st.isActive && !st.isProcessing then
    { w1 with live := { id := w1.nextId, delayMs := 1000 } :: w1.live,
              effectTimer := some w1.nextId,
              nextId := w1.nextId + 1 }
  else w1

/-- Clap amplitude threshold of `AudioDetector.tsx` line 24 (`0.8`). -/
def clapThreshold : ℚ := 8 / 10

/-- Clap cooldown of `AudioDetector.tsx` line 25 (1000 ms). -/
def clapCooldown : Nat := 1000

/-- The normalized loudness of one analyser snapshot (`AudioDetector.tsx`
lines 37-40): average of the frequency-bin magnitudes divided by 255. -/
def normalizedLevel (bins : List Nat) : ℚ :=
  ((bins.sum : ℚ) / (bins.length : ℚ)) / 255

/-- The clap-decision core of `processAudio` (lines 44-53).  Given the last
accepted clap time, the bin magnitudes of this tick and the current time,
returns the updated last-clap time and whether `onClapDetected` fires: the
level must exceed the threshold and strictly more than `clapCooldown`
milliseconds must have passed since the last accepted clap. -/
def processTick (lastClapTime : Nat) (bins : List Nat) (now : Nat) : Nat × Bool :=
  if normalizedLevel bins > clapThreshold then
    if now - lastClapTime > clapCooldown then (now, true) else (lastClapTime, false)
  else (lastClapTime, false)

/-- The state of `TextToSpeech.tsx` relevant to `speak`. -/
structure TtsState where
  isSpeaking : Bool
  isPaused : Bool
  isSupported : Bool
  language : Lang
  speechRate : ℚ
  speechVolume : ℚ
  selectedVoice : Option String
deriving DecidableEq, Repr

/-- Observable calls `speak` makes into the speech-synthesis engine. -/
inductive TtsAction where
  | cancel
  | speakUtterance (text lang : String) (rate volume : ℚ) (voice : Option String)
deriving DecidableEq, Repr

/-- `languageMap` of `TextToSpeech.tsx` lines 34-38. -/
def languageMap : Lang → String
  | Lang.eng => "en-US"
  | Lang.hin => "hi-IN"
  | Lang.tel => "te-IN"

/-- `speak` of `TextToSpeech.tsx` lines 86-121.  The guard
`if (!isSupported || !textToSpeak.trim()) return;` exits before
`speechSynthesis.cancel()`, so degenerate input performs no action and leaves
the state untouched.  Otherwise the current utterance is cancelled and a new
utterance is issued with the mapped locale, rate, volume and selected voice.
The speaking/paused flags are only changed later by utterance lifecycle
callbacks, never synchronously by `speak` itself. -/
def ttsSpeak (st : TtsState) (textToSpeak : String) : TtsState × List TtsAction :=
  if st.isSupported = false ∨ jsTrim textToSpeak = "" then (st, [])
  else
    (st,
     [TtsAction.cancel,
      TtsAction.speakUtterance textToSpeak (languageMap st.language)
        st.speechRate st.speechVolume st.selectedVoice])

/-- Snapshot of an active cycle at its start: the closure state under which
`processImage` is running. -/
def activeSnap : ReaderState :=
  { isActive := true, isProcessing := false, recognizedText := "",
    currentLanguage := Lang.eng, status := scanningStatus, error := none }

/-- Component state while a cycle is scanning (`isProcessing = true`). -/
def scanningState : ReaderState :=
  { isActive := true, isProcessing := true, recognizedText := "",
    currentLanguage := Lang.eng, status := scanningStatus, error := none }

/-- Component state right after a clap deactivated the session while a cycle
was still recognizing. -/
def deactState : ReaderState :=
  { isActive := false, isProcessing := false, recognizedText := "",
    currentLanguage := Lang.eng, status := deactivatedStatus, error := none }

/-- Active idle state (between cycles), as seen by the auto-start effect. -/
def idleActiveState : ReaderState :=
  { isActive := true, isProcessing := false, recognizedText := "",
    currentLanguage := Lang.eng, status := noTextStatus, error := none }

/-- Component state while a second cycle, started by the auto-start effect
timer, is mid-recognition: active, processing, recognition status shown. -/
def busyState : ReaderState :=
  { isActive := true, isProcessing := true, recognizedText := "",
    currentLanguage := Lang.eng, status := processingStatus, error := none }

/-- Inactive state that still displays previously recognized text. -/
def inactiveWithText : ReaderState :=
  { isActive := false, isProcessing := false, recognizedText := "OLD",
    currentLanguage := Lang.eng, status := deactivatedStatus, error := none }

/-- A timer world with nothing scheduled. -/
def emptyTimerWorld : TimerWorld :=
  { nextId := 0, live := [], refTimer := none, effectTimer := none }

/-- A supported TTS state with the default rate and volume. -/
def supportedTts : TtsState :=
  { isSpeaking := false, isPaused := false, isSupported := true,
    language := Lang.eng, speechRate := 9 / 10, speechVolume := 8 / 10,
    selectedVoice := none }

/-- A nonempty string has positive length. -/
theorem stringLengthPos (s : String) (h : s ≠ "") : 0 < s.length := by
  cases s with
  | mk data =>
    cases data with
    | nil => exact absurd rfl h
    | cons a l => simp [String.length]

/-- Claim C1 (refuted by the code; code bug): deactivating during the
Recognizing step does not prevent the cycle result from mutating state.  The
success continuation, applied to the deactivated component state, still
overwrites `recognizedText` and `status`, emits a speak call carrying the
recognized text, and schedules a 3000 ms rescan timer — no discard check
exists between the awaited recognition and the state updates. -/
theorem c1_resultAppliedAfterDeactivation :
    deactState.isActive = false ∧
    onRecognitionSuccess activeSnap "HELLO" deactState =
      ({ deactState with recognizedText := "HELLO",
                         status := "Found text: HELLO",
                         isProcessing := false },
       [{ text := "HELLO", lang := "en-US" }],
       some { delayMs := 3000, capturedIsActive := true }) := by
  constructor
  · rfl
  · decide

/-- Claim C2, counterexample to the original statement: after a capture
failure while active, the component state has `isActive && !isProcessing`, so
the auto-start effect schedules a new `processImage` invocation after 1000 ms
— a subsequent cycle is started automatically from that failure, contradicting
the claimed absence of any next-cycle schedule. -/
theorem c2_failureTriggersAutoRestart :
    autoStartDelay (onRecognitionError "Failed to capture image" scanningState).1 = some 1000 ∧
    autoStartDelay (onRecognitionError "Failed to capture image" scanningState).1 ≠ none := by
  constructor
  · rfl
  · intro h
    simp [autoStartDelay, onRecognitionError, scanningState] at h

/-- Claim C2 as amended: after any cycle failure, `error` is set to the
failure message, `status` to the error status, `isProcessing` to false, the
error status is spoken, and the catch branch itself stores no retry timer —
but while the session is still active the auto-start effect observes
`isActive && !isProcessing` and schedules the next cycle 1000 ms later. -/
theorem c2_errorPathBehavior (msg : String) (st : ReaderState) (h : st.isActive = true) :
    onRecognitionError msg st =
      ({ st with error := some msg, status := errorStatus, isProcessing := false },
       [{ text := errorStatus, lang := "en-US" }],
       (none : Option PendingTimer)) ∧
    autoStartDelay (onRecognitionError msg st).1 = some 1000 := by
  constructor
  · rfl
  · simp [onRecognitionError, autoStartDelay, h]

/-- Witness for the amended C2 at a concrete failing capture. -/
theorem c2_errorPathBehavior_witness :
    onRecognitionError "Failed to capture image" scanningState =
      ({ scanningState with error := some "Failed to capture image",
                            status := errorStatus, isProcessing := false },
       [{ text := errorStatus, lang := "en-US" }],
       (none : Option PendingTimer)) ∧
    autoStartDelay (onRecognitionError "Failed to capture image" scanningState).1 = some 1000 :=
  c2_errorPathBehavior "Failed to capture image" scanningState rfl

/-- Claim C3, counterexample to the original statement: scheduling never
cancels the prior outstanding timeout.  After the empty-text path stores a
1500 ms retry timer, one auto-start effect run adds a second live 1000 ms
timer, so two timers are outstanding at once; and a second
`processingTimeoutRef` assignment overwrites the handle while the first
timeout remains live and uncancelled. -/
theorem c3_twoTimersOutstanding :
    (effectRun idleActiveState (setRefTimeout emptyTimerWorld 1500)).live.length = 2 ∧
    ({ id := 0, delayMs := 1500 } : TimerEntry) ∈
      (setRefTimeout (setRefTimeout emptyTimerWorld 1500) 3000).live ∧
    (setRefTimeout (setRefTimeout emptyTimerWorld 1500) 3000).refTimer = some 1 := by
  refine ⟨rfl, ?_, rfl⟩
  decide

/-- Claim C3 as amended: `processingTimeoutRef` only tracks the most recently
scheduled timeout — a new schedule overwrites the handle without cancelling
the previously scheduled timeout, which stays live, so more than one timer can
be outstanding per session; the only cancellation of the tracked timeout is
the deactivation branch, which cancels exactly the timeout whose id the ref
holds. -/
theorem c3_scheduleOverwritesWithoutCancel :
    (∀ w d, (setRefTimeout w d).live = { id := w.nextId, delayMs := d } :: w.live ∧
            (setRefTimeout w d).refTimer = some w.nextId) ∧
    (∀ w, (clearRefTimeout w).live =
            match w.refTimer with
            | some i => w.live.filter (fun e => e.id != i)
            | none => w.live) := by
  constructor
  · intro w d
    exact ⟨rfl, rfl⟩
  · intro w
    cases h : w.refTimer <;> simp [clearRefTimeout, h]

/-- Claim C4, counterexample to the original statement: at a gap of exactly
1000 ms the code does not emit.  A maximal-level tick at t = 2000 is accepted
(updating the last-clap time to 2000); a second maximal-level tick at
t = 3000 satisfies the claimed condition — level above the threshold and at
least 1000 ms elapsed — yet `processAudio` requires strictly more than the
cooldown and emits nothing, leaving the last-clap time at 2000. -/
theorem c4_exactCooldownBoundary :
    processTick 0 [255] 2000 = (2000, true) ∧
    normalizedLevel [255] > clapThreshold ∧
    3000 - 2000 ≥ clapCooldown ∧
    processTick 2000 [255] 3000 = (2000, false) := by
  have hlev : normalizedLevel [255] > clapThreshold := by
    norm_num [normalizedLevel, clapThreshold]
  refine ⟨?_, hlev, by norm_num [clapCooldown], ?_⟩
  · simp [processTick, hlev, clapCooldown]
  · simp [processTick, hlev, clapCooldown]

/-- Claim C4 as amended: a tick emits a clap event if and only if its
normalized level (average bin magnitude divided by 255) exceeds 0.8 and
strictly more than 1000 ms have elapsed since the previously emitted event;
emitting updates the last-accepted timestamp to the tick time, and a
non-emitting tick leaves it unchanged. -/
theorem c4_processTickCharacterization (lastClapTime now : Nat) (bins : List Nat) :
    processTick lastClapTime bins now =
      if normalizedLevel bins > clapThreshold ∧ now - lastClapTime > clapCooldown
      then (now, true) else (lastClapTime, false) := by
  by_cases h1 : normalizedLevel bins > clapThreshold <;>
    by_cases h2 : now - lastClapTime > clapCooldown <;>
      simp [processTick, h1, h2]

/-- Claim C5, counterexample to the original statement: a clap received while
inactive activates the session but does not reset `recognizedText` to the
empty string — previously recognized text survives activation. -/
theorem c5_activationKeepsRecognizedText :
    ((handleClapDetected inactiveWithText none).1).isActive = true ∧
    ((handleClapDetected inactiveWithText none).1).recognizedText = "OLD" ∧
    ("OLD" : String) ≠ "" := by
  refine ⟨rfl, rfl, ?_⟩
  decide

/-- Claim C5 as amended: a clap while inactive sets `isActive` to true, clears
`error`, sets the activated status and announces activation, leaving
`recognizedText` (and the tracked timer) unchanged; a clap while active
cancels the tracked pending timer, forces `isProcessing` to false, clears
`recognizedText`, sets the deactivated status and announces deactivation. -/
theorem c5_clapToggleBehavior (st : ReaderState) (ref : Option PendingTimer) :
    handleClapDetected st ref =
      (if st.isActive then
        ({ st with isActive := false, isProcessing := false,
                   status := deactivatedStatus, recognizedText := "" },
         (none : Option PendingTimer),
         [{ text := deactivatedSpeech, lang := "en-US" }])
       else
        ({ st with isActive := true, status := activatedStatus, error := none },
         ref,
         [{ text := activatedSpeech, lang := "en-US" }])) ∧
    ((handleClapDetected st ref).1).recognizedText =
      (if st.isActive then "" else st.recognizedText) := by
  cases h : st.isActive <;> simp [handleClapDetected, h]

/-- Claim C6 (refuted by the code; code bug): the re-entry guard of
`processImage` reads the closure-captured state, not the session state at
invocation time.  In the run where an empty-text cycle stores its 1500 ms
retry timer and the auto-start effect's 1000 ms timer then starts a new cycle
first, the retry callback fires while the current state has
`isProcessing = true` — yet the captured state of the stale closure it invokes
is active and not processing, so the guard passes: the call is not a no-op, it
overwrites the current status with the scanning status, speaks the scanning
announcement, and a second concurrent cycle begins.  Only an invocation whose
captured state itself is processing (a fresh closure) is the intended
no-op. -/
theorem c6_staleGuardReentry :
    busyState.isProcessing = true ∧
    processStart idleActiveState true busyState =
      some ({ busyState with isProcessing := true, status := scanningStatus },
            { text := scanningSpeech, lang := "en-US" }) ∧
    ({ busyState with isProcessing := true, status := scanningStatus } : ReaderState) ≠
      busyState ∧
    processStart busyState true busyState = none := by
  refine ⟨rfl, ?_, ?_, ?_⟩ <;> decide

/-- Claim C7 (confirmed): a cycle whose recognition result trims to non-empty
text emits exactly one speak call, carrying the full trimmed text and the
locale of the active language under the fixed mapping `eng ↦ en-US`,
`hin ↦ hi-IN`, `tel ↦ te-IN`; `recognizedText` is updated to that text, the
status summarizes its first 50 characters, and `isProcessing` becomes
false. -/
theorem c7_nonEmptyTextAnnouncedOnce (snap cur : ReaderState) (raw : String)
    (h : jsTrim raw ≠ "") :
    onRecognitionSuccess snap raw cur =
      ({ cur with recognizedText := jsTrim raw,
                  status := foundStatus (jsTrim raw),
                  isProcessing := false },
       [{ text := jsTrim raw, lang := ttsLanguage snap.currentLanguage }],
       some { delayMs := 3000, capturedIsActive := snap.isActive }) ∧
    ttsLanguage Lang.eng = "en-US" ∧ ttsLanguage Lang.hin = "hi-IN" ∧
    ttsLanguage Lang.tel = "te-IN" := by
  have hp : 0 < (jsTrim raw).length := stringLengthPos _ h
  refine ⟨?_, rfl, rfl, rfl⟩
  simp [onRecognitionSuccess, hp]

/-- Witness for C7 at the spec scenario text. -/
theorem c7_nonEmptyTextAnnouncedOnce_witness :
    onRecognitionSuccess activeSnap "EXIT 12B" scanningState =
      ({ scanningState with recognizedText := jsTrim "EXIT 12B",
                            status := foundStatus (jsTrim "EXIT 12B"),
                            isProcessing := false },
       [{ text := jsTrim "EXIT 12B", lang := ttsLanguage activeSnap.currentLanguage }],
       some { delayMs := 3000, capturedIsActive := activeSnap.isActive }) ∧
    ttsLanguage Lang.eng = "en-US" ∧ ttsLanguage Lang.hin = "hi-IN" ∧
    ttsLanguage Lang.tel = "te-IN" :=
  c7_nonEmptyTextAnnouncedOnce activeSnap scanningState "EXIT 12B" (by decide)

/-- Claim C8 (refuted by the code; code bug): the rescan after non-empty text
is indeed stored with a 3000 ms delay, but the active flag is not re-checked
at fire time — the callback `if (state.isActive) processImage();` reads the
`state.isActive` captured by the cycle closure, which is always true.  So
after a deactivation that leaves the timer uncancelled (for instance a clap
during the Recognizing step, after which the completion schedules this timer),
the fire still starts a cycle although `isActive` is false. -/
theorem c8_staleActiveCheckAtFire :
    (onRecognitionSuccess activeSnap "EXIT 12B" deactState).2.2 =
      some { delayMs := 3000, capturedIsActive := true } ∧
    deactState.isActive = false ∧
    timerFireStartsCycle { delayMs := 3000, capturedIsActive := true } = true := by
  refine ⟨?_, rfl, rfl⟩
  decide

/-- Claim C9 (confirmed): a cycle whose recognition result is empty or
whitespace-only after trimming sets the status to the no-text message, sets
`isProcessing` to false, speaks exactly that status — never the whitespace
text itself — and schedules the next cycle with a fixed 1500 ms delay. -/
theorem c9_emptyTextRetryPath (snap cur : ReaderState) (raw : String)
    (h : jsTrim raw = "") :
    onRecognitionSuccess snap raw cur =
      ({ cur with status := noTextStatus, isProcessing := false },
       [{ text := noTextStatus, lang := "en-US" }],
       some { delayMs := 1500, capturedIsActive := snap.isActive }) ∧
    (∀ s ∈ (onRecognitionSuccess snap raw cur).2.1, Speak.text s ≠ raw) := by
  have h0 : onRecognitionSuccess snap raw cur =
      ({ cur with status := noTextStatus, isProcessing := false },
       [{ text := noTextStatus, lang := "en-US" }],
       some { delayMs := 1500, capturedIsActive := snap.isActive }) := by
    simp [onRecognitionSuccess, h]
  refine ⟨h0, ?_⟩
  intro s hs
  rw [h0] at hs
  simp at hs
  subst hs
  intro heq
  rw [← heq] at h
  exact absurd h (by decide)

/-- Witness for C9 at the spec scenario: whitespace-only recognized text. -/
theorem c9_emptyTextRetryPath_witness :
    onRecognitionSuccess activeSnap "  " scanningState =
      ({ scanningState with status := noTextStatus, isProcessing := false },
       [{ text := noTextStatus, lang := "en-US" }],
       some { delayMs := 1500, capturedIsActive := activeSnap.isActive }) ∧
    (∀ s ∈ (onRecognitionSuccess activeSnap "  " scanningState).2.1,
       Speak.text s ≠ "  ") :=
  c9_emptyTextRetryPath activeSnap scanningState "  " (by decide)

/-- Claim C10 (confirmed): `speak` is a no-op for degenerate input — when the
text trims to empty, or speech synthesis is unsupported, it returns before
`speechSynthesis.cancel()`, starting no utterance, cancelling nothing and
leaving the speaking/paused state untouched. -/
theorem c10_speakDegenerateNoOp (st : TtsState) (raw : String)
    (h : st.isSupported = false ∨ jsTrim raw = "") :
    ttsSpeak st raw = (st, []) := by
  unfold ttsSpeak
  rw [if_pos h]

/-- Witness for C10 on whitespace-only input. -/
theorem c10_speakDegenerateNoOp_witness :
    ttsSpeak supportedTts "   " = (supportedTts, []) :=
  c10_speakDegenerateNoOp supportedTts "   " (Or.inr (by decide))
